import Mathlib

/-!
Verification of the vizzy-chat backend (src/backend) against its
natural-language specification.

The Python modules are shallowly embedded as pure Lean functions:

* `context.py`  — per-user mood/event tracker (`pending_context`);
* `memory.py`   — rolling per-user message history and derived preferences;
* `story.py`    — template-based 3-scene story generator;
* `main.py`     — the FastAPI handlers `/chat` and `/reset`, the clarification
  state machine, the mode-specific generation orchestrator and its helpers.

Mutable module-level dictionaries become explicit state values threaded
through the handlers.  Randomness (`random.choice`) and network I/O
(provider HTTP calls) become oracle parameters: a `choice` is an index into
the fixed list the code chooses from, and each provider call's outcome is
`some body` (HTTP 200 with an image payload) or `none` (timeout, non-200 or
malformed payload — the code's `except` path).  Wall-clock timestamps
(`time.time()`, `asked_at`, `generation_time`) carry no information the
claims touch and are dropped from the embedded records.
-/

set_option autoImplicit false

/-! ## Python string helpers

Implemented by structural recursion over the character list (rather than
through the byte-position-indexed core `String` functions) so that every
definition evaluates inside the kernel on concrete inputs. -/

/-- Python's `sub in s` substring test. -/
def strContains (s pat : String) : Bool :=
  s.toList.tails.any (fun t => pat.toList.isPrefixOf t)

/-- Python's `str.lower()` (ASCII case folding, as in the source's usage). -/
def pyLower (s : String) : String :=
  String.mk (s.toList.map Char.toLower)

/-- Python's `str.strip()`: whitespace removed from both ends. -/
def pyStrip (s : String) : String :=
  String.mk (((s.toList.dropWhile Char.isWhitespace).reverse.dropWhile
    Char.isWhitespace).reverse)

/-- Splitting worker: scan left to right, cutting at each leftmost
non-overlapping occurrence of `sep`; `fuel` bounds the recursion and is at
least the remaining length at every call. -/
def pySplitAux (sep : List Char) : Nat → List Char → List Char → List (List Char)
  | _, [], acc => [acc.reverse]
  | 0, l, acc => [acc.reverse ++ l]
  | fuel + 1, c :: rest, acc =>
    if sep.isPrefixOf (c :: rest) then
      acc.reverse :: pySplitAux sep fuel (rest.drop (sep.length - 1)) []
    else pySplitAux sep fuel rest (c :: acc)

/-- Python's `str.split(sep)` for a non-empty separator. -/
def pySplitOn (sep s : String) : List String :=
  (pySplitAux sep.toList s.toList.length s.toList []).map String.mk

/-- `random.choice l` with the random draw replaced by an oracle index `i`. -/
def choose (l : List String) (i : Nat) : String :=
  l.getD (i % l.length) ""

/-- Python's `l[-n:]`. -/
def pyTakeLast (n : Nat) (l : List String) : List String :=
  l.drop (l.length - n)

/-- Python's `str.capitalize()`: first character uppercased, the rest
lowercased. -/
def pyCapitalize (s : String) : String :=
  match s.toList with
  | [] => ""
  | c :: rest => String.mk (c.toUpper :: rest.map Char.toLower)

/-- Whitespace splitting worker: cut at every whitespace character. -/
def pyWordsAux : List Char → List Char → List (List Char)
  | [], acc => [acc.reverse]
  | c :: rest, acc =>
    if c.isWhitespace then acc.reverse :: pyWordsAux rest []
    else pyWordsAux rest (c :: acc)

/-- Python's `str.split()` with no argument: split on whitespace runs,
dropping empty pieces. -/
def pyWords (s : String) : List String :=
  ((pyWordsAux s.toList []).map String.mk).filter (fun w => w ≠ "")

/-- `re.sub(r'[.!?]$', '', s)`: strip one trailing `.`, `!` or `?`. -/
def stripTrailingPunct (s : String) : String :=
  match s.toList.getLast? with
  | some c => if c == '.' || c == '!' || c == '?' then String.mk s.toList.dropLast else s
  | none => s

/-- The single-quote character (code point 39), used where the source scans
for quoted substrings. -/
def squote : Char := Char.ofNat 39

/-- First capture of `re.findall(r'q([^q]*)q', message)` for a quote
character `q`: the text between the first quote and the one after it, if a
closing quote exists. -/
def firstQuoted (q : Char) : List Char → Option (List Char)
  | [] => none
  | c :: rest =>
    if c == q then
      if rest.contains q then some (rest.takeWhile (fun d => d != q)) else none
    else firstQuoted q rest

/-! ## context.py — per-user mood/event tracker -/

/-- One user's entry of `pending_context`: the optional detected mood and
event keywords. -/
structure UserCtx where
  mood : Option String := none
  event : Option String := none
deriving DecidableEq, Repr

/-- The `pending_context` dictionary: `none` for a user with no entry. -/
def Ctx := String → Option UserCtx

/-- Mood vocabulary of `update_context` (context.py lines 18-22). -/
def ctxMoods : List String :=
  ["happy","sad","tired","peaceful","excited","angry","nostalgic","anxious",
   "dull","boring","energetic","calm","romantic","mysterious","professional",
   "creative","melancholic","subdued","weary","vibrant","joyful","somber",
   "tender","enigmatic","polished","imaginative","hectic","serene","inspiring",
   "uplifting","thoughtful", "frustrated", "relaxed", "contemplative", "motivated"]

/-- Event vocabulary of `update_context` (context.py lines 25-26). -/
def ctxEvents : List String :=
  ["work","office","family","friends","home","personal","life","career",
   "morning","afternoon","evening","night","weekend","vacation","meeting",
   "day", "today", "yesterday", "tomorrow", "business", "company"]

/-- `update_context` (context.py): scan the lowercased message against the
mood and event vocabularies in list order, each match overwriting the stored
keyword (the two `for` loops). -/
def update_context (user_id message : String) (ctx : Ctx) : Ctx :=
  let msg := pyLower message
  let u0 := (ctx user_id).getD {}
  let u1 := ctxMoods.foldl
    (fun u m => if strContains msg m then { u with mood := some m } else u) u0
  let u2 := ctxEvents.foldl
    (fun u e => if strContains msg e then { u with event := some e } else u) u1
  fun x => if x = user_id then some u2 else ctx x

/-- `needs_context` (context.py): true iff no mood recorded.  (`init_user`'s
insertion of an empty entry is observationally irrelevant here and is
absorbed by the `getD {}`.) -/
def needs_context (user_id : String) (ctx : Ctx) : Bool :=
  ((ctx user_id).getD {}).mood.isNone

/-- `get_context_prompt` (context.py): render the stored context as a prompt
fragment; Python's truthiness test on the `.get(…, "")` strings becomes a
non-emptiness test. -/
def get_context_prompt (user_id : String) (ctx : Ctx) : String :=
  let u := (ctx user_id).getD {}
  let mood := u.mood.getD ""
  let event := u.event.getD ""
  if mood ≠ "" && event ≠ "" then mood ++ " atmosphere related to " ++ event
  else if mood ≠ "" then mood ++ " atmosphere"
  else if event ≠ "" then "scene related to " ++ event
  else ""

/-- `clear_context` (context.py): reset the user's entry to an empty record
(only when the user has one). -/
def clear_context (user_id : String) (ctx : Ctx) : Ctx :=
  fun x => if x = user_id then (ctx user_id).map (fun _ => {}) else ctx x

/-! ## memory.py — rolling message history and preferences -/

/-- The `user_memory` dictionary, reduced to the message texts (the stored
ISO timestamp is never read).  A user with no entry maps to `[]`:
`get_user_preferences` treats an absent user and an empty history alike. -/
def Memory := String → List String

/-- `update_memory` (memory.py): append the message and keep the most recent
50 entries. -/
def update_memory (user_id msg : String) (mem : Memory) : Memory :=
  fun x =>
    if x = user_id then
      let l := mem user_id ++ [msg]
      if l.length > 50 then l.drop (l.length - 50) else l
    else mem x

/-- Style keyword groups of `detect_favorite_style` (memory.py), in dict
insertion order. -/
def styleKeywords : List (String × List String) :=
  [("cinematic", ["cinematic", "movie", "film"]),
   ("minimalist", ["minimal", "simple", "clean"]),
   ("abstract", ["abstract", "artistic"]),
   ("realistic", ["realistic", "real", "photograph"]),
   ("vintage", ["vintage", "retro", "old"]),
   ("modern", ["modern", "contemporary"]),
   ("art", ["art", "artistic", "creative"]),
   ("poster", ["poster", "sign", "ad"]),
   ("story", ["story", "narrative", "tale"])]

/-- `detect_favorite_style` (memory.py): collect the style names matched by
the last 10 messages and return a most frequent one.  Python breaks count
ties by the iteration order of `set(styles)` (hash-based); the embedding
breaks them by first occurrence — no claim depends on the tie order. -/
def detect_favorite_style (history : List String) : Option String :=
  let styles := (pyTakeLast 10 history).flatMap (fun msg =>
    styleKeywords.filterMap (fun p =>
      if p.2.any (fun k => strContains (pyLower msg) k) then some p.1 else none))
  match styles.eraseDups with
  | [] => none
  | c :: cs => some (cs.foldl (fun best x =>
      if styles.count x > styles.count best then x else best) c)

/-- `detect_common_themes` (memory.py): words longer than 4 characters from
the last 5 messages; `list(set(themes))[:3]` becomes first-occurrence
de-duplication capped at 3 (set order is hash-based; no claim depends on
it). -/
def detect_common_themes (history : List String) : List String :=
  let themes := (pyTakeLast 5 history).flatMap (fun msg =>
    (pyWords (pyLower msg)).filter (fun w => w.length > 4))
  themes.eraseDups.take 3

/-- Result of `get_user_preferences` (memory.py). -/
structure Preferences where
  favorite_style : Option String
  interaction_count : Nat
  common_themes : List String
deriving DecidableEq, Repr

/-- `get_user_preferences` (memory.py).  The absent-user early return and the
general path agree on an empty history. -/
def get_user_preferences (user_id : String) (mem : Memory) : Preferences :=
  let history := mem user_id
  { favorite_style := detect_favorite_style history
    interaction_count := history.length
    common_themes := detect_common_themes history }

/-! ## story.py — template-based 3-scene story generator

The `StoryGenerator._load_model` path (gpt2 via transformers) is never
exercised by `generate_story`, which is fully template based; only the
template path is embedded. -/

/-- `StoryGenerator.mood_prompts` (story.py lines 20-32). -/
def mood_prompts : List (String × String) :=
  [("happy", "bright and cheerful with warm colors"),
   ("sad", "soft and melancholic with muted tones"),
   ("peaceful", "calm and serene with gentle transitions"),
   ("energetic", "dynamic and vibrant with movement"),
   ("mysterious", "dark and intriguing with hidden elements"),
   ("romantic", "warm and tender with soft focus"),
   ("dull", "subdued and quiet with low contrast"),
   ("hectic", "chaotic and busy with overlapping elements"),
   ("motivation", "inspiring with gradual brightness increase"),
   ("thoughtful", "contemplative with soft, reflective tones"),
   ("neutral", "balanced and atmospheric")]

/-- The story-type keyword cascade of `generate_story` (story.py lines
82-95): first matching group wins, `"default"` otherwise. -/
def story_type_of (prompt : String) : String :=
  let p := pyLower prompt
  if ["adventure", "journey", "quest", "explore"].any (fun w => strContains p w) then "adventure"
  else if ["love", "romance", "heart", "together"].any (fun w => strContains p w) then "romance"
  else if ["mystery", "secret", "detective", "puzzle"].any (fun w => strContains p w) then "mystery"
  else if ["inspire", "dream", "hope", "motivate"].any (fun w => strContains p w) then "inspirational"
  else if ["magic", "dragon", "fantasy", "wizard"].any (fun w => strContains p w) then "fantasy"
  else "default"

/-- The per-type opening-line templates of `generate_story` (story.py lines
49-80), with the f-string mood interpolation made explicit. -/
def story_templates (mood : String) : List (String × List String) :=
  [("adventure",
    ["Once upon a time, in a " ++ mood ++ " land far away...",
     "The hero embarked on a " ++ mood ++ " journey...",
     "An unexpected adventure began on a " ++ mood ++ " morning..."]),
   ("romance",
    ["Two hearts met under a " ++ mood ++ " sky...",
     "A " ++ mood ++ " love story unfolded...",
     "In the " ++ mood ++ " glow of twilight, they found each other..."]),
   ("mystery",
    ["A " ++ mood ++ " secret waited to be discovered...",
     "The " ++ mood ++ " night held many secrets...",
     "Something " ++ mood ++ " was about to happen..."]),
   ("inspirational",
    ["A " ++ mood ++ " journey of self-discovery began...",
     "She found strength in the " ++ mood ++ " moments...",
     "The " ++ mood ++ " path led to unexpected places..."]),
   ("fantasy",
    ["In a realm of " ++ mood ++ " magic...",
     "The " ++ mood ++ " prophecy spoke of a hero...",
     "Magic filled the " ++ mood ++ " air..."]),
   ("default",
    ["In a " ++ mood ++ " setting, our story begins...",
     "The " ++ mood ++ " atmosphere set the stage...",
     "A " ++ mood ++ " tale unfolded before our eyes..."])]

/-- `story_templates.get(story_type, story_templates["default"])`. -/
def story_templates_for (mood story_type : String) : List String :=
  match (story_templates mood).lookup story_type with
  | some l => l
  | none =>
    ["In a " ++ mood ++ " setting, our story begins...",
     "The " ++ mood ++ " atmosphere set the stage...",
     "A " ++ mood ++ " tale unfolded before our eyes..."]

/-- `StoryGenerator._generate_image_prompts` (story.py lines 208-225): per
scene, the text before the first `.` plus the mood description and a
position tag — establishing shot for the first scene, action scene for the
second, resolution otherwise. -/
def generate_image_prompts (scenes : List String) (mood_desc : String) : List String :=
  scenes.enum.map (fun p =>
    let first_sentence := String.mk (p.2.toList.takeWhile (fun c => c != '.'))
    if p.1 = 0 then
      first_sentence ++ ", " ++ mood_desc ++ ", establishing shot, cinematic composition, detailed, atmospheric, digital art"
    else if p.1 = 1 then
      first_sentence ++ ", " ++ mood_desc ++ ", action scene, dramatic lighting, detailed, atmospheric, digital art"
    else
      first_sentence ++ ", " ++ mood_desc ++ ", resolution, emotional payoff, detailed, atmospheric, digital art")

/-- The dictionary `generate_story` returns (story.py lines 121-129). -/
structure StoryData where
  title : String
  scenes : List String
  theme : String
  mood : String
  mood_description : String
  image_prompts : List String
  scene_count : Nat
deriving DecidableEq, Repr

/-- `generate_story` (story.py lines 45-129 and the module-level wrapper):
pick the story type by keyword cascade, a random opening template
(`templateChoice` is the oracle for `random.choice`), build the three
scenes, the capitalized title and the tagged per-scene image prompts. -/
def generate_story (templateChoice : Nat) (prompt : String) (mood : String) : StoryData :=
  let story_type := story_type_of prompt
  let template := choose (story_templates_for mood story_type) templateChoice
  let scenes :=
    [template ++ " " ++ prompt,
     "The " ++ mood ++ " journey continued as new challenges emerged.",
     "In the end, the " ++ mood ++ " experience left everyone transformed."]
  let title_words := pyWords prompt
  let title :=
    if title_words.length > 3 then String.intercalate " " (title_words.take 3) ++ "..."
    else prompt
  let title := pyCapitalize title
  let mood_desc := ((mood_prompts.lookup mood).getD "atmospheric")
  { title := title
    scenes := scenes
    theme := story_type
    mood := mood
    mood_description := mood_desc
    image_prompts := generate_image_prompts scenes mood_desc
    scene_count := scenes.length }

/-! ## main.py — requests, images and the generation orchestrator -/

/-- The pydantic `ChatRequest` (main.py lines 900-912).  `mode` keeps its
`Optional[str]` type; pydantic fills `some "personal"` when the field is
omitted, and performs no validation of the string. -/
structure ChatRequest where
  user_id : String
  message : String
  conversation_id : Option String := none
  mode : Option String := some "personal"
deriving DecidableEq, Repr

/-- A PIL image, abstracted to its provenance: either decoded from a
successful provider response, or `_create_placeholder(prompt)` — the locally
rendered fallback tagged with the prompt it was drawn for. -/
inductive Img where
  | provided (data : String)
  | placeholder (prompt : String)
deriving DecidableEq, Repr

/-- `generate_images_hf` (main.py lines 34-67): one provider HTTP call per
requested image; `outcomes (start + i)` is the i-th call's result —
`some data` for HTTP 200 with an image body, `none` for a timeout, non-200
status or any other exception, in which case the slot is filled with
`_create_placeholder(prompt)`.  Always returns exactly `num_images`
images. -/
def generate_images_hf (outcomes : Nat → Option String) (start : Nat)
    (prompt : String) (num_images : Nat) : List Img :=
  (List.range num_images).map (fun i =>
    match outcomes (start + i) with
    | some data => Img.provided data
    | none => Img.placeholder prompt)

/-- A base64 PNG produced by `encode_images`; the byte string itself is
opaque, so the encoding is modeled as a wrapper around the image. -/
structure EncodedImage where
  ofImg : Img
deriving DecidableEq, Repr

/-- `encode_images` (main.py lines 417-439): encode each image; the `except`
branch that appends `None` on a serialization error is modeled as never
taken (resizing and PNG encoding of an in-memory image), hence every entry
is `some`. -/
def encode_images (images : List Img) : List (Option EncodedImage) :=
  images.map (fun img => some ⟨img⟩)

/-- `extract_slogan` (main.py lines 390-415): first double-quoted substring,
else first single-quoted substring, else the text after `"slogan should be"`
in the lowercased message (up to the next occurrence of the phrase),
stripped and with one trailing `.`/`!`/`?` removed, else `none`. -/
def extract_slogan (message : String) : Option String :=
  match firstQuoted '"' message.toList with
  | some cap => some (String.mk cap)
  | none =>
    match firstQuoted squote message.toList with
    | some cap => some (String.mk cap)
    | none =>
      if strContains (pyLower message) "slogan should be" then
        let parts := pySplitOn "slogan should be" (pyLower message)
        if parts.length > 1 then
          some (stripTrailingPunct (pyStrip (parts.getD 1 "")))
        else none
      else none

/-- The `mood_map` of `process_clarified_request` (main.py lines 609-620),
in dict insertion order. -/
def mood_map : List (String × String) :=
  [("dull", "dull and unmotivated"),
   ("boring", "boring and uneventful"),
   ("tired", "tired and exhausted"),
   ("peaceful", "peaceful and calm"),
   ("energetic", "energetic and vibrant"),
   ("happy", "happy and joyful"),
   ("sad", "sad and melancholic"),
   ("busy", "busy and hectic"),
   ("calm", "calm and relaxed"),
   ("motivation", "needing motivation")]

/-- The keyword scan of `process_clarified_request` (main.py lines 622-629):
first `mood_map` entry whose keyword occurs in the lowercased clarification
(`break` on first hit), else the fallback
`("thoughtful", "thoughtful and reflective")`.  Returns
`(simple_mood, detected_mood_desc)`. -/
def detect_clarification_mood (clarification : String) : String × String :=
  match mood_map.find? (fun p => strContains (pyLower clarification) p.1) with
  | some p => p
  | none => ("thoughtful", "thoughtful and reflective")

/-- `update_context_with_mood` (main.py lines 360-369): store the detected
mood in `pending_context`. -/
def update_context_with_mood (user_id mood : String) (ctx : Ctx) : Ctx :=
  fun x =>
    if x = user_id then some { (ctx user_id).getD {} with mood := some mood }
    else ctx x

/-- `generate_clarifying_question` (main.py lines 503-538): pick the
day/feeling/default bucket by keyword scan, then one of its three phrasings
(`qChoice` is the oracle for `random.choice`). -/
def generate_clarifying_question (qChoice : Nat) (user_message : String) : String :=
  let message_lower := pyLower user_message
  let day_questions :=
    ["I'd love to visualize your day! Could you tell me more about how it felt?",
     "What was the predominant feeling during your day?",
     "How would you describe the energy of your day?"]
  let feeling_questions :=
    ["What emotions would you like me to capture in this artwork?",
     "Tell me more about what you're feeling - that will help me create something meaningful.",
     "What emotional tone should I emphasize?"]
  let default_questions :=
    ["To create something personal, could you tell me more about the mood you want to express?",
     "What feeling should this artwork capture?",
     "Let's make something special! Tell me more about the feeling you want to capture."]
  let bucket :=
    if strContains message_lower "day" || strContains message_lower "today" then day_questions
    else if ["feel", "feeling", "emotion", "mood"].any (fun w => strContains message_lower w) then
      feeling_questions
    else default_questions
  choose bucket qChoice

/-- `generate_dynamic_reasoning` (main.py lines 544-586): a mode-specific
template (keyed by `"art"`, `"poster"`, `"story"`; anything else — including
`"transform"`, `"business"`, `"personal"` and a missing mode — falls back to
the `"personal"` templates) applied to a 30-character message preview and
the mood, followed by a generic insight sentence.  `rChoice` and `iChoice`
are the oracles for the two `random.choice` calls. -/
def generate_dynamic_reasoning (rChoice iChoice : Nat) (message mood : String)
    (mode : Option String) : String :=
  let message_preview := if message.length > 30 then String.mk (message.toList.take 30) ++ "..." else message
  let personal_templates :=
    ["I've interpreted your request through a " ++ mood ++ " lens, focusing on '" ++ message_preview ++ "'",
     "Drawing from '" ++ message_preview ++ "', I've emphasized " ++ mood ++ " elements",
     "The " ++ mood ++ " atmosphere you described guided my creative direction"]
  let templates :=
    if mode = some "art" then
      ["As an artist, I've interpreted '" ++ message_preview ++ "' through a " ++ mood ++ " lens",
       "Your vision of '" ++ message_preview ++ "' inspired these " ++ mood ++ " artistic interpretations",
       "I've translated '" ++ message_preview ++ "' into " ++ mood ++ " visual poetry"]
    else if mode = some "poster" then
      ["For this poster, I've designed a " ++ mood ++ " background that complements your message",
       "The composition uses " ++ mood ++ " tones to create visual impact",
       "This " ++ mood ++ " design provides the perfect canvas for your text"]
    else if mode = some "story" then
      ["Your story about '" ++ message_preview ++ "' unfolds in three " ++ mood ++ " chapters",
       "I've crafted a " ++ mood ++ " narrative arc based on your vision",
       "Each scene builds on the " ++ mood ++ " atmosphere to tell your tale"]
    else personal_templates
  let insights :=
    ["Notice how the lighting creates depth and atmosphere.",
     "The composition guides your eye through the scene.",
     "The color harmony reinforces the emotional tone.",
     "The contrast creates visual interest and drama."]
  choose templates rChoice ++ ". " ++ choose insights iChoice

/-- Oracle for one `generate_content` run: `crash` models an unexpected
exception escaping the generation body (e.g. a PIL failure inside
`_create_placeholder` outside its inner `try`, which propagates through the
`except` clause of `generate_images_hf`) — the spec's "unexpected internal
failure"; `outcomes` is the stream of provider-call results, indexed by
attempt number within the request; the `…Choice` fields replace the
`random.choice` draws. -/
structure GenOracle where
  crash : Option String := none
  outcomes : Nat → Option String := fun _ => none
  styleChoice : Nat := 0
  reasoningChoice : Nat := 0
  insightChoice : Nat := 0
  storyTemplateChoice : Nat := 0

/-- The `metadata` block of a generation result (main.py, each mode's return
dict).  `generation_time` is wall-clock and is dropped. -/
structure Metadata where
  mode : String
  mood : String
deriving DecidableEq, Repr

/-- The `content` dict of a generation result.  Keys that only some modes
emit (`prompt_used`, `style`, `slogan`, `title`, `scenes`) are `Option`s
that are `none` exactly when the mode's dict omits the key; `slogan`'s inner
`Option` is `extract_slogan`'s own result. -/
structure GenContent where
  images : List (Option EncodedImage) := []
  reasoning : String := ""
  prompt_used : Option String := none
  mode : String := ""
  style : Option String := none
  slogan : Option (Option String) := none
  title : Option String := none
  scenes : Option (List String) := none
  metadata : Metadata
deriving DecidableEq, Repr

/-- A `{"type": …, "content": …}` dict returned by `generate_content`. -/
structure GenResult where
  type : String
  content : GenContent
deriving DecidableEq, Repr

/-- The scene prompt of story mode (main.py line 778). -/
def story_scene_prompt (scene selected_style mood : String) : String :=
  scene ++ ", " ++ selected_style ++ ", " ++ mood ++ " atmosphere"

/-- The scene loop of story mode (main.py lines 777-782): one
`generate_images_hf(scene_prompt, 1)` call per scene (`i` numbers the
provider attempts), appending the first returned image when the list is
non-empty (it always has exactly one element). -/
def story_scene_images (outcomes : Nat → Option String)
    (selected_style mood : String) : List String → Nat → List Img
  | [], _ => []
  | scene :: rest, i =>
    let img_list :=
      generate_images_hf outcomes i (story_scene_prompt scene selected_style mood) 1
    match img_list with
    | img :: _ => img :: story_scene_images outcomes selected_style mood rest (i + 1)
    | [] => story_scene_images outcomes selected_style mood rest (i + 1)

/-- The body of `generate_content` (main.py lines 652-894) on the runs where
no unexpected exception occurs: mood lookup with default `"vibrant"`,
then the mode dispatch (`art` / `poster` / `story` / `transform` /
`business` / default-personal), each branch building its enhanced prompt,
requesting its images and assembling its result dict. -/
def generate_content_core (g : GenOracle) (ctx : Ctx) (mem : Memory)
    (req : ChatRequest) : GenResult :=
  let user_ctx := (ctx req.user_id).getD {}
  let mood := user_ctx.mood.getD "vibrant"
  let context_prompt := get_context_prompt req.user_id ctx
  let mode := req.mode
  let preferences := get_user_preferences req.user_id mem
  let base_style :=
    match preferences.favorite_style with
    | some s => "artistic, creative, atmospheric, emotional" ++ ", " ++ s
    | none => "artistic, creative, atmospheric, emotional"
  if mode = some "art" then
    let message_lower := pyLower req.message
    let is_about_day := strContains message_lower "my day" || strContains message_lower "today"
    let selected_style :=
      choose ["expressionist", "impressionist", "abstract", "surreal"] g.styleChoice
    let enhanced_prompt :=
      if is_about_day then
        "Artistic interpretation of a day, " ++ mood ++ " mood, " ++ selected_style ++ " style"
      else req.message ++ ", " ++ selected_style ++ " style, " ++ base_style
    let images := generate_images_hf g.outcomes 0 enhanced_prompt 2
    let reasoning := generate_dynamic_reasoning g.reasoningChoice g.insightChoice req.message mood mode
    { type := "image",
      content := { images := encode_images images, reasoning := reasoning,
                   prompt_used := some enhanced_prompt, mode := "art",
                   style := some selected_style,
                   metadata := { mode := "art", mood := mood } } }
  else if mode = some "poster" then
    let slogan := extract_slogan req.message
    let selected_type := choose ["minimalist", "bold typography", "elegant", "modern"] g.styleChoice
    let enhanced_prompt :=
      selected_type ++ " poster background, " ++ req.message ++ ", " ++ mood ++ " atmosphere, no text"
    let images := generate_images_hf g.outcomes 0 enhanced_prompt 2
    let reasoning := generate_dynamic_reasoning g.reasoningChoice g.insightChoice req.message mood mode
    { type := "poster",
      content := { images := encode_images images, slogan := some slogan,
                   reasoning := reasoning, prompt_used := some enhanced_prompt,
                   mode := "poster", style := some selected_type,
                   metadata := { mode := "poster", mood := mood } } }
  else if mode = some "story" then
    let story_data := generate_story g.storyTemplateChoice req.message mood
    let selected_style := choose ["cinematic", "illustrated", "children's book"] g.styleChoice
    -- `story_data.get('scenes', …)[:3]` and `story_data.get('title', …)`:
    -- `generate_story` always emits both keys, so the `.get` defaults are dead
    let scenes := story_data.scenes.take 3
    let scene_images := story_scene_images g.outcomes selected_style mood scenes 0
    let reasoning := generate_dynamic_reasoning g.reasoningChoice g.insightChoice req.message mood mode
    { type := "story",
      content := { title := some story_data.title, scenes := some scenes,
                   images := encode_images scene_images, reasoning := reasoning,
                   mode := "story", style := some selected_style,
                   metadata := { mode := "story", mood := mood } } }
  else if mode = some "transform" then
    let target_style := choose ["oil painting", "watercolor", "sketch", "cyberpunk"] g.styleChoice
    let enhanced_prompt :=
      req.message ++ ", transformed into " ++ target_style ++ " style, " ++ mood ++ " atmosphere"
    let images := generate_images_hf g.outcomes 0 enhanced_prompt 2
    let reasoning := generate_dynamic_reasoning g.reasoningChoice g.insightChoice req.message mood mode
    { type := "image",
      content := { images := encode_images images, reasoning := reasoning,
                   prompt_used := some enhanced_prompt, mode := "transform",
                   style := some target_style,
                   metadata := { mode := "transform", mood := mood } } }
  else if mode = some "business" then
    let selected_style := choose ["corporate", "professional", "clean", "modern"] g.styleChoice
    let enhanced_prompt :=
      req.message ++ ", " ++ selected_style ++ " business visual, professional, " ++ mood ++ " atmosphere"
    let images := generate_images_hf g.outcomes 0 enhanced_prompt 2
    let reasoning := generate_dynamic_reasoning g.reasoningChoice g.insightChoice req.message mood mode
    { type := "image",
      content := { images := encode_images images, reasoning := reasoning,
                   prompt_used := some enhanced_prompt, mode := "business",
                   style := some selected_style,
                   metadata := { mode := "business", mood := mood } } }
  else
    let enhanced_prompt := req.message ++ ", " ++ context_prompt ++ ", " ++ base_style
    let images := generate_images_hf g.outcomes 0 enhanced_prompt 2
    let reasoning := generate_dynamic_reasoning g.reasoningChoice g.insightChoice req.message mood mode
    { type := "image",
      content := { images := encode_images images, reasoning := reasoning,
                   prompt_used := some enhanced_prompt, mode := "personal",
                   metadata := { mode := "personal", mood := mood } } }

/-- `generate_content` as its callers see it: either the assembled result,
or the unexpected exception `g.crash` propagating out. -/
def generate_content (g : GenOracle) (ctx : Ctx) (mem : Memory)
    (req : ChatRequest) : Except String GenResult :=
  match g.crash with
  | some e => Except.error e
  | none => Except.ok (generate_content_core g ctx mem req)

/-! ## main.py — conversation state and the `/chat` and `/reset` handlers -/

/-- The `last_bot_message` entry of `conversation_state[user]`: either the
dict stored by `store_question_asked` (its `asked_at` wall-clock timestamp
dropped) or the generation result stored by `store_generated_response`. -/
inductive LastBotMessage where
  | question (original_query : String)
  | response (r : GenResult)
deriving DecidableEq, Repr

/-- The `.get("type")` field the handler inspects on the stored message. -/
def lastMsgType : LastBotMessage → String
  | .question _ => "question"
  | .response r => r.type

/-- The process-wide mutable state of the backend: `user_memory`
(memory.py), `pending_context` (context.py) and `conversation_state`
(main.py). -/
structure ServerState where
  mem : Memory
  ctx : Ctx
  conv : String → Option LastBotMessage

/-- `store_question_asked` (main.py lines 336-348). -/
def store_question_asked (user_id original_query : String)
    (conv : String → Option LastBotMessage) : String → Option LastBotMessage :=
  fun x => if x = user_id then some (.question original_query) else conv x

/-- `store_generated_response` (main.py lines 350-358). -/
def store_generated_response (user_id : String) (r : GenResult)
    (conv : String → Option LastBotMessage) : String → Option LastBotMessage :=
  fun x => if x = user_id then some (.response r) else conv x

/-- `process_clarified_request` (main.py lines 592-646): read the original
query from the stored question (`.get("original_query", req.message)`),
detect the clarification mood, persist it via `update_context_with_mood`,
build the enhanced request (`mode=req.mode` — the `hasattr` guard is always
true on a pydantic model) and generate.  The response is stored only when
generation returns; an exception leaves `conversation_state` untouched but
keeps the already-persisted mood. -/
def process_clarified_request (g : GenOracle) (st : ServerState)
    (req : ChatRequest) (last : LastBotMessage) : ServerState × Except String GenResult :=
  let original_query := match last with | .question q => q | .response _ => req.message
  let md := detect_clarification_mood req.message
  let ctx2 := update_context_with_mood req.user_id md.1 st.ctx
  let enhanced_message := original_query ++ ". The mood is " ++ md.2 ++ "."
  let enhanced_req : ChatRequest :=
    { user_id := req.user_id, message := enhanced_message,
      conversation_id := req.conversation_id, mode := req.mode }
  let st2 : ServerState := { st with ctx := ctx2 }
  match generate_content g st2.ctx st2.mem enhanced_req with
  | .error e => (st2, .error e)
  | .ok result =>
    ({ st2 with conv := store_generated_response req.user_id result st2.conv }, .ok result)

/-- What the `/chat` handler returns: a generation payload, a
`{type:"question"}` payload (both HTTP 200), or the
`JSONResponse(status_code=500, {"type":"error","content":{"text":…}})` of
the top-level `except` clause. -/
inductive ChatReply where
  | ok (r : GenResult)
  | question (text : String)
  | error (status : Nat) (text : String)
deriving DecidableEq, Repr

/-- The mood-keyword list of the vagueness check (main.py line 1006). -/
def chat_mood_keywords : List String :=
  ["happy", "sad", "dull", "boring", "energetic", "calm"]

/-- The tail of the `/chat` handler (main.py lines 1000-1031) reached when
no clarifying question is pending: the vagueness check (the unused
`is_mood_query` of line 1003 is omitted), then either a clarifying question
or generation.  The recognised-mode branch of lines 1021-1025 and the
default branch of lines 1028-1031 run the same two calls
(`generate_content`, `store_generated_response`) and are modeled as one. -/
def chat_fresh (g : GenOracle) (qChoice : Nat) (st : ServerState)
    (req : ChatRequest) : ServerState × ChatReply :=
  let message_lower := pyLower req.message
  let is_day_query := strContains message_lower "my day" || strContains message_lower "today"
  let has_mood_detail := chat_mood_keywords.any (fun w => strContains message_lower w)
  let is_vague_day_request := is_day_query && !has_mood_detail
  if is_vague_day_request then
    let question_text := generate_clarifying_question qChoice req.message
    ({ st with conv := store_question_asked req.user_id req.message st.conv },
     .question question_text)
  else
    match generate_content g st.ctx st.mem req with
    | .ok result =>
      ({ st with conv := store_generated_response req.user_id result st.conv }, .ok result)
    | .error e => (st, .error 500 ("Generation failed: " ++ e))

/-- The `/chat` handler (main.py lines 972-1042): update memory and context,
then either consume a pending clarifying question or run `chat_fresh`.  Any
exception `e` escaping the `try` block is caught by the top-level `except`
and turned into the 500 error reply, with whatever state mutations preceded
it already committed. -/
def chat (g : GenOracle) (qChoice : Nat) (st : ServerState)
    (req : ChatRequest) : ServerState × ChatReply :=
  let st1 : ServerState :=
    { st with mem := update_memory req.user_id req.message st.mem,
              ctx := update_context req.user_id req.message st.ctx }
  match st1.conv req.user_id with
  | some last =>
    if lastMsgType last = "question" then
      match process_clarified_request g st1 req last with
      | (st2, .ok result) => (st2, .ok result)
      | (st2, .error e) => (st2, .error 500 ("Generation failed: " ++ e))
    else chat_fresh g qChoice st1 req
  | none => chat_fresh g qChoice st1 req

/-- The names bound at module level in main.py: its imports (lines 1-20) and
its module-level assignments, classes, functions and route handlers.  This
is the namespace in which the body of `reset_conversation` resolves
names. -/
def main_module_globals : List String :=
  ["FastAPI", "CORSMiddleware", "JSONResponse", "BaseModel", "BytesIO",
   "base64", "logging", "time", "os", "requests", "List", "Optional",
   "asyncio", "random", "re", "Image", "ImageDraw", "ImageFont",
   "load_dotenv", "update_memory", "get_user_preferences", "generate_story",
   "update_context", "get_context_prompt", "pending_context", "logger",
   "HF_API_TOKEN", "HF_MODEL_URL", "HF_HEADERS", "generate_images_hf",
   "_create_placeholder", "app", "HF_API_URL", "generate_with_hf",
   "generate_high_quality_placeholders", "create_emergency_placeholder",
   "conversation_state", "get_last_interaction", "store_question_asked",
   "store_generated_response", "update_context_with_mood",
   "generate_conversational_suggestions", "extract_slogan", "encode_images",
   "generate_dynamic_suggestions", "generate_clarifying_question",
   "generate_dynamic_reasoning", "process_clarified_request",
   "generate_content", "ChatRequest", "ResetRequest", "ChatResponse",
   "root", "health_check", "chat_options", "reset_conversation", "chat",
   "test_deepai"]

/-- What `POST /reset` yields: the `{"status": "ok"}` body, or an unhandled
`NameError` (no `try` wraps the handler, so FastAPI turns it into a
framework-level 500). -/
inductive ResetReply where
  | ok
  | nameError (missing : String)
deriving DecidableEq, Repr

/-- `reset_conversation` (main.py lines 960-970).  Its first statement
evaluates the name `clear_context`; main.py imports only `update_context`,
`get_context_prompt` and `pending_context` from `context` (line 20) and
binds no `clear_context` of its own, so the lookup raises `NameError` before
any state is touched.  Had the name resolved, the handler would clear the
user's context entry and delete the conversation state. -/
def reset_conversation (st : ServerState) (user_id : String) : ServerState × ResetReply :=
  if main_module_globals.contains "clear_context" then
    ({ st with ctx := clear_context user_id st.ctx,
               conv := fun x => if x = user_id then none else st.conv x }, .ok)
  else (st, .nameError "clear_context")

/-! ## Infrastructure lemmas -/

/-- `strContains` agrees with list-infix containment. -/
theorem strContains_iff (s pat : String) :
    strContains s pat = true ↔ pat.toList <:+: s.toList := by
  unfold strContains
  rw [List.any_eq_true, List.infix_iff_prefix_suffix]
  constructor
  · rintro ⟨t, ht, hp⟩
    exact ⟨t, List.isPrefixOf_iff_prefix.mp hp, (List.mem_tails _ _).mp ht⟩
  · rintro ⟨t, hp, hs⟩
    exact ⟨t, (List.mem_tails _ _).mpr hs, List.isPrefixOf_iff_prefix.mpr hp⟩

/-- A substring of the left half is a substring of the concatenation. -/
theorem strContains_left (a b pat : String) (h : strContains a pat = true) :
    strContains (a ++ b) pat = true := by
  rw [strContains_iff] at h ⊢
  show pat.toList <:+: (a ++ b).data
  rw [String.data_append]
  exact h.trans (List.prefix_append a.data b.data).isInfix

/-- A substring of the right half is a substring of the concatenation. -/
theorem strContains_right (a b pat : String) (h : strContains b pat = true) :
    strContains (a ++ b) pat = true := by
  rw [strContains_iff] at h ⊢
  show pat.toList <:+: (a ++ b).data
  rw [String.data_append]
  exact h.trans (List.suffix_append a.data b.data).isInfix

/-- A string occurring literally between two others is a substring. -/
theorem strContains_splice (a mid b : String) :
    strContains (a ++ mid ++ b) mid = true := by
  rw [strContains_iff]
  show mid.toList <:+: (a ++ mid ++ b).data
  rw [String.data_append, String.data_append]
  exact List.infix_append a.data mid.data b.data

/-! ## Shared concrete test fixtures -/

/-- An empty `pending_context`. -/
def emptyCtx : Ctx := fun _ => none

/-- An empty `user_memory`. -/
def emptyMem : Memory := fun _ => []

/-- A backend start state: all three per-user dictionaries empty. -/
def emptyState : ServerState :=
  { mem := emptyMem, ctx := emptyCtx, conv := fun _ => none }

/-- The oracle of a run where every provider call fails and no unexpected
exception occurs (all random choices take the first option). -/
def gAllFail : GenOracle := {}

/-- The oracle of a run where an unexpected exception `"boom"` escapes the
generation body. -/
def gCrash : GenOracle := { crash := some "boom" }

/-! ## Claim C6 — extract_slogan -/

/-- C6, counterexample: the claim expects
`extract_slogan("the slogan should be Buy Now.")` to return `"Buy Now"`, but
the code splits the lowercased message, so the returned slogan is
`"buy now"`. -/
theorem extract_slogan_keeps_lowercase_cex :
    extract_slogan "the slogan should be Buy Now." ≠ some "Buy Now" := by
  decide

/-- C6, amended: `extract_slogan` returns the first double-quoted substring
(original case), else the first single-quoted substring, else the text after
the phrase "slogan should be" in the lowercased message with one trailing
punctuation mark stripped, else none — on the claim's inputs:
`some "Big Sale Today"`, `some "buy now"` (lowercased by the code) and
`none`; a double-quoted substring wins over a single-quoted one. -/
theorem extract_slogan_behavior :
    extract_slogan "Poster saying \"Big Sale Today\"" = some "Big Sale Today"
  ∧ extract_slogan "the slogan should be Buy Now." = some "buy now"
  ∧ extract_slogan "nothing quoted here" = none
  ∧ extract_slogan "say \"A\" and then say 'B' loudly" = some "A" := by
  refine ⟨?_, ?_, ?_, ?_⟩ <;> decide

/-! ## Claim C4 — POST /reset -/

/-- C4: `POST /reset` does not clear anything and does not return
`{"status": "ok"}` — for every state and user it raises
`NameError: clear_context` (the handler calls `clear_context`, which main.py
never imports), leaving the whole server state unchanged. -/
theorem reset_conversation_raises_nameError (st : ServerState) (user_id : String) :
    reset_conversation st user_id = (st, ResetReply.nameError "clear_context") := by
  rfl

/-! ## Claim C8 — update_context records the last match -/

/-- The mood loop of `update_context`: the final mood is the last vocabulary
entry that matches, or the previous mood when none does; the event field is
untouched. -/
theorem foldl_mood_overwrite (p : String → Bool) (l : List String) (u : UserCtx) :
    l.foldl (fun u m => if p m then { u with mood := some m } else u) u
      = { u with mood := ((l.filter p).getLast?).or u.mood } := by
  induction l using List.reverseRecOn with
  | nil => simp
  | append_singleton l x ih =>
    rw [List.foldl_append, ih, List.filter_append]
    by_cases hp : p x
    · simp [hp]
    · simp [hp]

/-- The event loop of `update_context`, symmetric to the mood loop. -/
theorem foldl_event_overwrite (p : String → Bool) (l : List String) (u : UserCtx) :
    l.foldl (fun u e => if p e then { u with event := some e } else u) u
      = { u with event := ((l.filter p).getLast?).or u.event } := by
  induction l using List.reverseRecOn with
  | nil => simp
  | append_singleton l x ih =>
    rw [List.foldl_append, ih, List.filter_append]
    by_cases hp : p x
    · simp [hp]
    · simp [hp]

/-- The user's entry after `update_context`: mood and event are each the
last matching keyword of their vocabulary in scan order, falling back to the
previous value. -/
theorem update_context_eq (user_id message : String) (ctx : Ctx) :
    (update_context user_id message ctx) user_id
      = some { mood := ((ctxMoods.filter (fun m => strContains (pyLower message) m)).getLast?).or
                 (((ctx user_id).getD {}).mood),
               event := ((ctxEvents.filter (fun e => strContains (pyLower message) e)).getLast?).or
                 (((ctx user_id).getD {}).event) } := by
  unfold update_context
  rw [foldl_mood_overwrite, foldl_event_overwrite]
  simp

/-- C8: on a message containing at least one mood keyword, `update_context`
records exactly the last matching mood keyword in scan order over the fixed
vocabulary (later matches overwrite earlier ones), and likewise the last
matching event keyword when the message contains one. -/
theorem update_context_records_last_match (user_id message : String) (ctx : Ctx)
    (hm : ∃ m ∈ ctxMoods, strContains (pyLower message) m = true) :
    (((update_context user_id message ctx) user_id).getD {}).mood
        = (ctxMoods.filter (fun m => strContains (pyLower message) m)).getLast?
  ∧ ((∃ e ∈ ctxEvents, strContains (pyLower message) e = true) →
      (((update_context user_id message ctx) user_id).getD {}).event
        = (ctxEvents.filter (fun e => strContains (pyLower message) e)).getLast?) := by
  rw [update_context_eq]
  constructor
  · obtain ⟨m, hmem, hp⟩ := hm
    have hne : ctxMoods.filter (fun m => strContains (pyLower message) m) ≠ [] :=
      List.ne_nil_of_mem (List.mem_filter.mpr ⟨hmem, hp⟩)
    cases hlast : (ctxMoods.filter (fun m => strContains (pyLower message) m)).getLast? with
    | none => exact absurd (List.getLast?_eq_none_iff.mp hlast) hne
    | some y => simp
  · rintro ⟨e, hmem, hp⟩
    have hne : ctxEvents.filter (fun e => strContains (pyLower message) e) ≠ [] :=
      List.ne_nil_of_mem (List.mem_filter.mpr ⟨hmem, hp⟩)
    cases hlast : (ctxEvents.filter (fun e => strContains (pyLower message) e)).getLast? with
    | none => exact absurd (List.getLast?_eq_none_iff.mp hlast) hne
    | some y => simp

/-- C8 witness: on "quite happy yet sad at work", the recorded mood is the
last matching mood keyword "sad" (overwriting "happy") and the recorded
event is "work". -/
theorem update_context_records_last_match_witness :
    (((update_context "u1" "quite happy yet sad at work" emptyCtx) "u1").getD {}).mood = some "sad"
  ∧ (((update_context "u1" "quite happy yet sad at work" emptyCtx) "u1").getD {}).event = some "work" := by
  have h := update_context_records_last_match "u1" "quite happy yet sad at work" emptyCtx
    (by decide)
  refine ⟨?_, ?_⟩
  · rw [h.1]; decide
  · rw [h.2 (by decide)]; decide

/-! ## Claim C3 — generation always returns the requested image count -/

/-- `generate_images_hf` returns exactly the requested number of images, for
every pattern of provider successes and failures. -/
theorem generate_images_hf_length (outcomes : Nat → Option String) (start : Nat)
    (prompt : String) (n : Nat) :
    (generate_images_hf outcomes start prompt n).length = n := by
  simp [generate_images_hf]

/-- Encoding preserves the number of images. -/
theorem encode_images_length (l : List Img) : (encode_images l).length = l.length := by
  simp [encode_images]

/-- The story-mode scene loop yields one image per scene. -/
theorem story_scene_images_length (outcomes : Nat → Option String)
    (selected_style mood : String) (scenes : List String) (i : Nat) :
    (story_scene_images outcomes selected_style mood scenes i).length = scenes.length := by
  induction scenes generalizing i with
  | nil => simp [story_scene_images]
  | cons s rest ih =>
    simp [story_scene_images, generate_images_hf, List.range_succ, ih]

/-- A failed provider attempt leaves a placeholder drawn from the prompt in
the corresponding slot. -/
theorem generate_images_hf_failed_slot (outcomes : Nat → Option String) (start : Nat)
    (prompt : String) (n i : Nat) (hi : i < n) (hfail : outcomes (start + i) = none) :
    (generate_images_hf outcomes start prompt n).getD i (Img.provided "")
      = Img.placeholder prompt := by
  unfold generate_images_hf
  rw [List.getD_eq_getElem?_getD, List.getElem?_map, List.getElem?_range hi]
  simp [hfail]

/-- The three scenes `generate_story` always produces. -/
theorem generate_story_scenes (templateChoice : Nat) (prompt mood : String) :
    (generate_story templateChoice prompt mood).scenes
      = [choose (story_templates_for mood (story_type_of prompt)) templateChoice ++ " " ++ prompt,
         "The " ++ mood ++ " journey continued as new challenges emerged.",
         "In the end, the " ++ mood ++ " experience left everyone transformed."] := rfl

/-- C3: every generation result carries exactly the requested number of
image slots — 2 for art, poster, transform, business, personal and any
other mode, 3 (one per scene) for story — for every pattern of provider
failures; each failed provider attempt is replaced by a locally drawn
placeholder; and when no unexpected exception occurs, `generate_content`
returns the assembled result rather than raising. -/
theorem generation_returns_requested_image_count
    (g : GenOracle) (ctx : Ctx) (mem : Memory) (req : ChatRequest) :
    ((generate_content_core g ctx mem req).content.images).length
      = (if req.mode = some "story" then 3 else 2)
  ∧ (∀ (outcomes : Nat → Option String) (start : Nat) (prompt : String) (n i : Nat),
      i < n → outcomes (start + i) = none →
      (generate_images_hf outcomes start prompt n).getD i (Img.provided "")
        = Img.placeholder prompt)
  ∧ (g.crash = none →
      generate_content g ctx mem req = Except.ok (generate_content_core g ctx mem req)) := by
  refine ⟨?_, fun o s p n i hi hf => generate_images_hf_failed_slot o s p n i hi hf,
          fun hc => by simp [generate_content, hc]⟩
  by_cases h1 : req.mode = some "art"
  · simp [generate_content_core, h1, encode_images_length, generate_images_hf_length]
  by_cases h2 : req.mode = some "poster"
  · simp [generate_content_core, h1, h2, encode_images_length, generate_images_hf_length]
  by_cases h3 : req.mode = some "story"
  · simp [generate_content_core, h1, h2, h3, encode_images_length,
      story_scene_images_length, generate_story_scenes]
  by_cases h4 : req.mode = some "transform"
  · simp [generate_content_core, h1, h2, h3, h4, encode_images_length, generate_images_hf_length]
  by_cases h5 : req.mode = some "business"
  · simp [generate_content_core, h1, h2, h3, h4, h5, encode_images_length,
      generate_images_hf_length]
  · simp [generate_content_core, h1, h2, h3, h4, h5, encode_images_length,
      generate_images_hf_length]

/-- A story-mode request used as a concrete instance. -/
def reqStoryEx : ChatRequest := { user_id := "u1", message := "a quest", mode := some "story" }

/-- C3 witness: with every provider call failing, a story request still
yields 3 image slots, and a failed slot of a direct 2-image call holds the
placeholder. -/
theorem generation_returns_requested_image_count_witness :
    ((generate_content_core gAllFail emptyCtx emptyMem reqStoryEx).content.images).length = 3
  ∧ (generate_images_hf (fun _ => none) 0 "p" 2).getD 0 (Img.provided "")
      = Img.placeholder "p" := by
  refine ⟨?_, ?_⟩
  · have h := (generation_returns_requested_image_count gAllFail emptyCtx emptyMem reqStoryEx).1
    simpa using h
  · exact (generation_returns_requested_image_count gAllFail emptyCtx emptyMem
      reqStoryEx).2.1 (fun _ => none) 0 "p" 2 0 (by decide) rfl

/-! ## Claim C5 — error handling of /chat -/

/-- An art-mode request whose message contains the mood keyword "happy". -/
def reqHappyArt : ChatRequest := { user_id := "u1", message := "happy painting", mode := some "art" }

/-- C5, counterexample: when generation fails unexpectedly, `/chat` does
return the 500 error reply, but the per-user state is not left unchanged —
the mood tracker has recorded "happy" and the memory log has recorded the
message before the failure. -/
theorem chat_error_commits_mood_and_memory_cex :
    (chat gCrash 0 emptyState reqHappyArt).2 = ChatReply.error 500 "Generation failed: boom"
  ∧ (chat gCrash 0 emptyState reqHappyArt).1.ctx "u1" ≠ emptyState.ctx "u1"
  ∧ (chat gCrash 0 emptyState reqHappyArt).1.mem "u1" ≠ emptyState.mem "u1" := by
  refine ⟨by decide, by decide, by decide⟩

/-- On an error, `chat_fresh` returns the state it was given, with status
500. -/
theorem chat_fresh_error (g : GenOracle) (qChoice : Nat) (st : ServerState)
    (req : ChatRequest) (code : Nat) (text : String)
    (herr : (chat_fresh g qChoice st req).2 = ChatReply.error code text) :
    code = 500 ∧ (chat_fresh g qChoice st req).1 = st := by
  rcases hcr : g.crash with _ | e0 <;>
    simp only [chat_fresh, generate_content, hcr] at herr ⊢
  · split at herr <;> simp at herr
  · by_cases hv : ((strContains (pyLower req.message) "my day"
        || strContains (pyLower req.message) "today")
        && !(chat_mood_keywords.any fun w => strContains (pyLower req.message) w)) = true
    · rw [if_pos hv] at herr
      simp at herr
    · rw [if_neg hv] at herr ⊢
      exact ⟨(ChatReply.error.inj herr).1.symm, rfl⟩

/-- On an error, `process_clarified_request` keeps `conversation_state` and
the memory log as it found them (only the mood tracker was touched). -/
theorem process_clarified_request_error (g : GenOracle) (st : ServerState)
    (req : ChatRequest) (last : LastBotMessage) (e : String)
    (herr : (process_clarified_request g st req last).2 = Except.error e) :
    (process_clarified_request g st req last).1.conv = st.conv
  ∧ (process_clarified_request g st req last).1.mem = st.mem := by
  rcases hcr : g.crash with _ | e0 <;>
    simp only [process_clarified_request, generate_content, hcr] at herr ⊢
  · simp at herr
  · simp

/-- C5, amended: on an unhandled internal failure `/chat` returns the
`{type:"error"}` body with HTTP status 500 and the question/answer state
(`conversation_state`) is left unchanged, but the memory log — and, along
the clarification path, the mood tracker — keep the updates made before the
failure. -/
theorem chat_error_preserves_conversation_state
    (g : GenOracle) (qChoice : Nat) (st : ServerState) (req : ChatRequest)
    (code : Nat) (text : String)
    (herr : (chat g qChoice st req).2 = ChatReply.error code text) :
    code = 500
  ∧ (chat g qChoice st req).1.conv = st.conv
  ∧ (chat g qChoice st req).1.mem = update_memory req.user_id req.message st.mem := by
  unfold chat at herr ⊢
  rcases hc : st.conv req.user_id with _ | last <;> simp only [hc] at herr ⊢
  · obtain ⟨h5, hst⟩ := chat_fresh_error g qChoice _ req code text herr
    rw [hst]
    exact ⟨h5, rfl, rfl⟩
  · by_cases hq : lastMsgType last = "question"
    · rw [if_pos hq] at herr ⊢
      rcases hp : process_clarified_request g
          { st with mem := update_memory req.user_id req.message st.mem,
                    ctx := update_context req.user_id req.message st.ctx } req last with ⟨st2, r⟩
      rw [hp] at herr
      rcases r with e | r
      · obtain ⟨hcv, hmm⟩ := process_clarified_request_error g
          { st with mem := update_memory req.user_id req.message st.mem,
                    ctx := update_context req.user_id req.message st.ctx } req last e
          (by rw [hp])
        rw [hp] at hcv hmm
        exact ⟨(ChatReply.error.inj herr).1.symm, hcv, hmm⟩
      · simp at herr
    · rw [if_neg hq] at herr ⊢
      obtain ⟨h5, hst⟩ := chat_fresh_error g qChoice _ req code text herr
      rw [hst]
      exact ⟨h5, rfl, rfl⟩

/-- C5 witness: the amended statement applied to a concrete failing run. -/
theorem chat_error_preserves_conversation_state_witness :
    (chat gCrash 0 emptyState reqHappyArt).1.conv = emptyState.conv
  ∧ (chat gCrash 0 emptyState reqHappyArt).1.mem
      = update_memory "u1" "happy painting" emptyState.mem := by
  have h := chat_error_preserves_conversation_state gCrash 0 emptyState reqHappyArt
    500 "Generation failed: boom" (by decide)
  exact ⟨h.2.1, h.2.2⟩

/-! ## Claim C2 — vagueness predicate and the clarifying question -/

/-- The Prop form of the handler's `is_vague_day_request` boolean. -/
theorem vague_bool_iff (m : String) :
    ((strContains (pyLower m) "my day" || strContains (pyLower m) "today")
      && !(chat_mood_keywords.any fun w => strContains (pyLower m) w)) = true
  ↔ ((strContains (pyLower m) "my day" = true ∨ strContains (pyLower m) "today" = true)
      ∧ ∀ w ∈ chat_mood_keywords, strContains (pyLower m) w = false) := by
  simp [List.any_eq_true]

/-- C2: with no clarifying question pending for the user, `/chat` replies
with a question exactly when the lowercased message mentions "my day" or
"today" and contains none of the fixed mood keywords; in that case the reply
is the generated clarifying question, the stored pending question keeps the
incoming message verbatim as `original_query`, and the generation
orchestrator is not invoked (the outcome does not depend on the generation
oracle). -/
theorem vague_day_message_asks_clarifying_question
    (g : GenOracle) (qChoice : Nat) (st : ServerState) (req : ChatRequest)
    (hnoq : ∀ l, st.conv req.user_id = some l → lastMsgType l ≠ "question") :
    ((∃ t, (chat g qChoice st req).2 = ChatReply.question t)
      ↔ ((strContains (pyLower req.message) "my day" = true
            ∨ strContains (pyLower req.message) "today" = true)
          ∧ ∀ w ∈ chat_mood_keywords, strContains (pyLower req.message) w = false))
  ∧ (((strContains (pyLower req.message) "my day" = true
        ∨ strContains (pyLower req.message) "today" = true)
      ∧ ∀ w ∈ chat_mood_keywords, strContains (pyLower req.message) w = false) →
      (chat g qChoice st req).2
        = ChatReply.question (generate_clarifying_question qChoice req.message)
    ∧ (chat g qChoice st req).1.conv req.user_id
        = some (LastBotMessage.question req.message)
    ∧ ∀ g' : GenOracle, chat g' qChoice st req = chat g qChoice st req) := by
  have hch : ∀ g' : GenOracle, chat g' qChoice st req
      = chat_fresh g' qChoice
          { st with mem := update_memory req.user_id req.message st.mem,
                    ctx := update_context req.user_id req.message st.ctx } req := by
    intro g'
    unfold chat
    rcases hc : st.conv req.user_id with _ | l <;> simp only [hc]
    rw [if_neg (hnoq l hc)]
  by_cases hb : ((strContains (pyLower req.message) "my day"
      || strContains (pyLower req.message) "today")
      && !(chat_mood_keywords.any fun w => strContains (pyLower req.message) w)) = true
  · have hq : ∀ g' : GenOracle, chat_fresh g' qChoice
        { st with mem := update_memory req.user_id req.message st.mem,
                  ctx := update_context req.user_id req.message st.ctx } req
        = ({ st with mem := update_memory req.user_id req.message st.mem,
                     ctx := update_context req.user_id req.message st.ctx,
                     conv := store_question_asked req.user_id req.message st.conv },
           ChatReply.question (generate_clarifying_question qChoice req.message)) := by
      intro g'
      unfold chat_fresh
      rw [if_pos hb]
    refine ⟨⟨fun _ => (vague_bool_iff req.message).mp hb, fun _ => ?_⟩, fun _ => ⟨?_, ?_, ?_⟩⟩
    · exact ⟨generate_clarifying_question qChoice req.message, by rw [hch g, hq g]⟩
    · rw [hch g, hq g]
    · rw [hch g, hq g]
      unfold store_question_asked
      simp
    · intro g'
      rw [hch g', hq g', hch g, hq g]
  · have hnq : ∀ t, (chat g qChoice st req).2 ≠ ChatReply.question t := by
      intro t
      rw [hch g]
      unfold chat_fresh
      rw [if_neg hb]
      rcases generate_content g _ _ req with e | r <;> simp
    have hnP : ¬ ((strContains (pyLower req.message) "my day" = true
        ∨ strContains (pyLower req.message) "today" = true)
        ∧ ∀ w ∈ chat_mood_keywords, strContains (pyLower req.message) w = false) :=
      fun hP => hb ((vague_bool_iff req.message).mpr hP)
    exact ⟨⟨fun ⟨t, ht⟩ => absurd ht (hnq t), fun hP => absurd hP hnP⟩,
           fun hP => absurd hP hnP⟩

/-- The vague day request of the spec's worked example. -/
def reqDay : ChatRequest := { user_id := "u1", message := "Tell me about my day" }

/-- C2 witness: "Tell me about my day" with no pending question yields a
question reply and stores the message verbatim as the pending question. -/
theorem vague_day_message_asks_clarifying_question_witness :
    (chat gAllFail 0 emptyState reqDay).2
      = ChatReply.question (generate_clarifying_question 0 "Tell me about my day")
  ∧ (chat gAllFail 0 emptyState reqDay).1.conv "u1"
      = some (LastBotMessage.question "Tell me about my day") := by
  have h := (vague_day_message_asks_clarifying_question gAllFail 0 emptyState reqDay
    (fun l hl => nomatch hl)).2 (by decide)
  exact ⟨h.1, h.2.1⟩

/-! ## Claim C1 — consuming a pending clarifying question -/

/-- `generate_content_core` never produces a `"question"`-typed result, so a
stored generated response never re-triggers the clarification path. -/
theorem generate_content_core_type_ne_question (g : GenOracle) (ctx : Ctx)
    (mem : Memory) (req : ChatRequest) :
    (generate_content_core g ctx mem req).type ≠ "question" := by
  by_cases h1 : req.mode = some "art"
  · simp [generate_content_core, h1]
  by_cases h2 : req.mode = some "poster"
  · simp [generate_content_core, h1, h2]
  by_cases h3 : req.mode = some "story"
  · simp [generate_content_core, h1, h2, h3]
  by_cases h4 : req.mode = some "transform"
  · simp [generate_content_core, h1, h2, h3, h4]
  by_cases h5 : req.mode = some "business"
  · simp [generate_content_core, h1, h2, h3, h4, h5]
  · simp [generate_content_core, h1, h2, h3, h4, h5]

/-- C1: when the stored conversation state is a pending question with
original query `Q`, the next `/chat` message is consumed as the
clarification: the detected mood pair is the first entry of the ordered
`mood_map` whose keyword occurs in the message (fallback
`("thoughtful", "thoughtful and reflective")`), its keyword is persisted
into the mood tracker, generation is dispatched on the derived request whose
message is `"{Q}. The mood is {description}."` with the current request's
mode, the result replaces the stored question as the last bot message, and —
since the stored result's type is never `"question"` — a third message will
be treated as a fresh request rather than another clarification answer. -/
theorem clarification_consumed_as_answer
    (g : GenOracle) (qChoice : Nat) (st : ServerState) (req : ChatRequest) (Q : String)
    (hq : st.conv req.user_id = some (LastBotMessage.question Q))
    (hcrash : g.crash = none) :
    (chat g qChoice st req).2
      = ChatReply.ok (generate_content_core g
          (update_context_with_mood req.user_id (detect_clarification_mood req.message).1
            (update_context req.user_id req.message st.ctx))
          (update_memory req.user_id req.message st.mem)
          { user_id := req.user_id,
            message := Q ++ ". The mood is " ++ (detect_clarification_mood req.message).2 ++ ".",
            conversation_id := req.conversation_id, mode := req.mode })
  ∧ (chat g qChoice st req).1.conv req.user_id
      = some (LastBotMessage.response (generate_content_core g
          (update_context_with_mood req.user_id (detect_clarification_mood req.message).1
            (update_context req.user_id req.message st.ctx))
          (update_memory req.user_id req.message st.mem)
          { user_id := req.user_id,
            message := Q ++ ". The mood is " ++ (detect_clarification_mood req.message).2 ++ ".",
            conversation_id := req.conversation_id, mode := req.mode }))
  ∧ (((chat g qChoice st req).1.ctx req.user_id).getD {}).mood
      = some (detect_clarification_mood req.message).1
  ∧ detect_clarification_mood req.message
      = (mood_map.find? (fun p => strContains (pyLower req.message) p.1)).getD
          ("thoughtful", "thoughtful and reflective")
  ∧ (∀ l, (chat g qChoice st req).1.conv req.user_id = some l → lastMsgType l ≠ "question") := by
  have hmd : detect_clarification_mood req.message
      = (mood_map.find? (fun p => strContains (pyLower req.message) p.1)).getD
          ("thoughtful", "thoughtful and reflective") := by
    unfold detect_clarification_mood
    cases mood_map.find? (fun p => strContains (pyLower req.message) p.1) <;> simp
  have hred : chat g qChoice st req
      = ({ st with mem := update_memory req.user_id req.message st.mem,
                   ctx := update_context_with_mood req.user_id
                     (detect_clarification_mood req.message).1
                     (update_context req.user_id req.message st.ctx),
                   conv := store_generated_response req.user_id
                     (generate_content_core g
                       (update_context_with_mood req.user_id
                         (detect_clarification_mood req.message).1
                         (update_context req.user_id req.message st.ctx))
                       (update_memory req.user_id req.message st.mem)
                       { user_id := req.user_id,
                         message := Q ++ ". The mood is "
                           ++ (detect_clarification_mood req.message).2 ++ ".",
                         conversation_id := req.conversation_id, mode := req.mode })
                     st.conv },
         ChatReply.ok (generate_content_core g
           (update_context_with_mood req.user_id (detect_clarification_mood req.message).1
             (update_context req.user_id req.message st.ctx))
           (update_memory req.user_id req.message st.mem)
           { user_id := req.user_id,
             message := Q ++ ". The mood is " ++ (detect_clarification_mood req.message).2 ++ ".",
             conversation_id := req.conversation_id, mode := req.mode })) := by
    unfold chat
    simp only [hq, lastMsgType, if_true]
    unfold process_clarified_request generate_content
    simp only [hcrash]
  refine ⟨by rw [hred], by rw [hred]; unfold store_generated_response; simp, ?_, hmd, ?_⟩
  · rw [hred]
    unfold update_context_with_mood
    simp
  · intro l hl
    rw [hred] at hl
    unfold store_generated_response at hl
    simp only [if_true, if_pos rfl, Option.some.injEq] at hl
    subst hl
    exact generate_content_core_type_ne_question g _ _ _

/-- The state after the spec's worked example asked its clarifying
question. -/
def stPending : ServerState :=
  { emptyState with
    conv := fun x =>
      if x = "u1" then some (LastBotMessage.question "Tell me about my day") else none }

/-- The clarification reply of the spec's worked example. -/
def reqPeaceful : ChatRequest := { user_id := "u1", message := "it was peaceful" }

/-- C1 witness: "it was peaceful" answering the pending question records
mood "peaceful" and replaces the stored question with a non-question
response. -/
theorem clarification_consumed_as_answer_witness :
    (((chat gAllFail 0 stPending reqPeaceful).1.ctx "u1").getD {}).mood = some "peaceful"
  ∧ detect_clarification_mood "it was peaceful" = ("peaceful", "peaceful and calm")
  ∧ (∀ l, (chat gAllFail 0 stPending reqPeaceful).1.conv "u1" = some l →
      lastMsgType l ≠ "question") := by
  have h := clarification_consumed_as_answer gAllFail 0 stPending reqPeaceful
    "Tell me about my day" (by decide) rfl
  refine ⟨?_, by decide, h.2.2.2.2⟩
  have h3 : (((chat gAllFail 0 stPending reqPeaceful).1.ctx "u1").getD {}).mood
      = some (detect_clarification_mood reqPeaceful.message).1 := h.2.2.1
  rw [h3]
  decide

/-! ## Claim C9 — the undocumented default mood "vibrant" -/

/-- `random.choice` always picks an element of a non-empty list. -/
theorem choose_mem (l : List String) (i : Nat) (h : l ≠ []) : choose l i ∈ l := by
  unfold choose
  have hlt : i % l.length < l.length := Nat.mod_lt _ (List.length_pos.mpr h)
  rw [List.getD_eq_getElem?_getD, List.getElem?_eq_getElem hlt]
  exact List.getElem_mem hlt

/-- Every reasoning template interpolates the mood, so the generated
reasoning string always contains it. -/
theorem generate_dynamic_reasoning_contains_mood (rChoice iChoice : Nat)
    (message mood : String) (mode : Option String) :
    strContains (generate_dynamic_reasoning rChoice iChoice message mood mode) mood = true := by
  unfold generate_dynamic_reasoning
  dsimp only
  apply strContains_left
  apply strContains_left
  by_cases h1 : mode = some "art"
  · rw [if_pos h1]
    set p := if message.length > 30 then String.mk (message.toList.take 30) ++ "..." else message
    have hm := choose_mem
      ["As an artist, I've interpreted '" ++ p ++ "' through a " ++ mood ++ " lens",
       "Your vision of '" ++ p ++ "' inspired these " ++ mood ++ " artistic interpretations",
       "I've translated '" ++ p ++ "' into " ++ mood ++ " visual poetry"] rChoice (by simp)
    simp only [List.mem_cons, List.not_mem_nil, or_false] at hm
    rcases hm with hm | hm | hm <;> rw [hm]
    · exact strContains_splice _ _ _
    · exact strContains_splice _ _ _
    · exact strContains_splice _ _ _
  rw [if_neg h1]
  by_cases h2 : mode = some "poster"
  · rw [if_pos h2]
    have hm := choose_mem
      ["For this poster, I've designed a " ++ mood ++ " background that complements your message",
       "The composition uses " ++ mood ++ " tones to create visual impact",
       "This " ++ mood ++ " design provides the perfect canvas for your text"] rChoice (by simp)
    simp only [List.mem_cons, List.not_mem_nil, or_false] at hm
    rcases hm with hm | hm | hm <;> rw [hm]
    · exact strContains_splice _ _ _
    · exact strContains_splice _ _ _
    · exact strContains_splice _ _ _
  rw [if_neg h2]
  by_cases h3 : mode = some "story"
  · rw [if_pos h3]
    set p := if message.length > 30 then String.mk (message.toList.take 30) ++ "..." else message
    have hm := choose_mem
      ["Your story about '" ++ p ++ "' unfolds in three " ++ mood ++ " chapters",
       "I've crafted a " ++ mood ++ " narrative arc based on your vision",
       "Each scene builds on the " ++ mood ++ " atmosphere to tell your tale"] rChoice (by simp)
    simp only [List.mem_cons, List.not_mem_nil, or_false] at hm
    rcases hm with hm | hm | hm <;> rw [hm]
    · exact strContains_splice _ _ _
    · exact strContains_splice _ _ _
    · exact strContains_splice _ _ _
  rw [if_neg h3]
  set p := if message.length > 30 then String.mk (message.toList.take 30) ++ "..." else message
  have hm := choose_mem
    ["I've interpreted your request through a " ++ mood ++ " lens, focusing on '" ++ p ++ "'",
     "Drawing from '" ++ p ++ "', I've emphasized " ++ mood ++ " elements",
     "The " ++ mood ++ " atmosphere you described guided my creative direction"] rChoice (by simp)
  simp only [List.mem_cons, List.not_mem_nil, or_false] at hm
  rcases hm with hm | hm | hm <;> rw [hm]
  · exact strContains_left _ _ _ (strContains_left _ _ _ (strContains_splice _ _ _))
  · exact strContains_splice _ _ _
  · exact strContains_splice _ _ _

/-- C9: for a user with no recorded mood, generation uses the default mood
"vibrant": it is recorded in `metadata.mood`, occurs in the reasoning text,
and a day-related art request uses the prompt
`"Artistic interpretation of a day, vibrant mood, {style} style"`. -/
theorem default_mood_is_vibrant (g : GenOracle) (ctx : Ctx) (mem : Memory)
    (req : ChatRequest) (hmood : ((ctx req.user_id).getD {}).mood = none) :
    (generate_content_core g ctx mem req).content.metadata.mood = "vibrant"
  ∧ strContains (generate_content_core g ctx mem req).content.reasoning "vibrant" = true
  ∧ (req.mode = some "art" →
      (strContains (pyLower req.message) "my day"
        || strContains (pyLower req.message) "today") = true →
      (generate_content_core g ctx mem req).content.prompt_used
        = some ("Artistic interpretation of a day, vibrant mood, "
            ++ choose ["expressionist", "impressionist", "abstract", "surreal"] g.styleChoice
            ++ " style")) := by
  by_cases h1 : req.mode = some "art"
  · refine ⟨?_, ?_, ?_⟩
    · simp [generate_content_core, h1, hmood]
    · simp only [generate_content_core, h1, hmood, if_true, if_pos]
      simp only [Option.getD_none]
      exact generate_dynamic_reasoning_contains_mood _ _ _ _ _
    · intro _ hday
      simp [generate_content_core, h1, hmood, hday]
  by_cases h2 : req.mode = some "poster"
  · refine ⟨by simp [generate_content_core, h1, h2, hmood], ?_, fun hart => absurd hart h1⟩
    simp only [generate_content_core, h1, h2, hmood, if_neg, if_pos, if_false, if_true]
    simp only [Option.getD_none]
    exact generate_dynamic_reasoning_contains_mood _ _ _ _ _
  by_cases h3 : req.mode = some "story"
  · refine ⟨by simp [generate_content_core, h1, h2, h3, hmood], ?_, fun hart => absurd hart h1⟩
    simp only [generate_content_core, h1, h2, h3, hmood, if_neg, if_pos, if_false, if_true]
    simp only [Option.getD_none]
    exact generate_dynamic_reasoning_contains_mood _ _ _ _ _
  by_cases h4 : req.mode = some "transform"
  · refine ⟨by simp [generate_content_core, h1, h2, h3, h4, hmood], ?_, fun hart => absurd hart h1⟩
    simp only [generate_content_core, h1, h2, h3, h4, hmood, if_neg, if_pos, if_false, if_true]
    simp only [Option.getD_none]
    exact generate_dynamic_reasoning_contains_mood _ _ _ _ _
  by_cases h5 : req.mode = some "business"
  · refine ⟨by simp [generate_content_core, h1, h2, h3, h4, h5, hmood], ?_,
      fun hart => absurd hart h1⟩
    simp only [generate_content_core, h1, h2, h3, h4, h5, hmood, if_neg, if_pos, if_false, if_true]
    simp only [Option.getD_none]
    exact generate_dynamic_reasoning_contains_mood _ _ _ _ _
  · refine ⟨by simp [generate_content_core, h1, h2, h3, h4, h5, hmood], ?_,
      fun hart => absurd hart h1⟩
    simp only [generate_content_core, h1, h2, h3, h4, h5, hmood, if_neg, if_pos, if_false, if_true]
    simp only [Option.getD_none]
    exact generate_dynamic_reasoning_contains_mood _ _ _ _ _

/-- A day-related art request from a user who never expressed a mood. -/
def reqDayArt : ChatRequest := { user_id := "u1", message := "paint my day", mode := some "art" }

/-- C9 witness: the default mood "vibrant" at a concrete day-related art
request from a fresh user. -/
theorem default_mood_is_vibrant_witness :
    (generate_content_core gAllFail emptyCtx emptyMem reqDayArt).content.metadata.mood = "vibrant"
  ∧ (generate_content_core gAllFail emptyCtx emptyMem reqDayArt).content.prompt_used
      = some "Artistic interpretation of a day, vibrant mood, expressionist style" := by
  have h := default_mood_is_vibrant gAllFail emptyCtx emptyMem reqDayArt rfl
  refine ⟨h.1, ?_⟩
  rw [h.2.2 rfl (by decide)]
  decide

/-! ## Claim C10 — undocumented modes fall through to personal -/

/-- C10: a `/chat` request whose mode string is not one of the six
documented modes is not rejected: with no pending question and a non-vague
message, generation runs and falls through to the default personal branch,
returning a result of type `"image"` with mode `"personal"`. -/
theorem unknown_mode_defaults_to_personal
    (g : GenOracle) (qChoice : Nat) (st : ServerState) (req : ChatRequest) (m : String)
    (hmode : req.mode = some m)
    (hsix : m ∉ ["art", "poster", "story", "transform", "business", "personal"])
    (hnoq : ∀ l, st.conv req.user_id = some l → lastMsgType l ≠ "question")
    (hcrash : g.crash = none)
    (hnotvague : ((strContains (pyLower req.message) "my day"
        || strContains (pyLower req.message) "today")
        && !(chat_mood_keywords.any fun w => strContains (pyLower req.message) w)) = false) :
    (chat g qChoice st req).2
      = ChatReply.ok (generate_content_core g
          (update_context req.user_id req.message st.ctx)
          (update_memory req.user_id req.message st.mem) req)
  ∧ (generate_content_core g (update_context req.user_id req.message st.ctx)
      (update_memory req.user_id req.message st.mem) req).type = "image"
  ∧ (generate_content_core g (update_context req.user_id req.message st.ctx)
      (update_memory req.user_id req.message st.mem) req).content.mode = "personal"
  ∧ (generate_content_core g (update_context req.user_id req.message st.ctx)
      (update_memory req.user_id req.message st.mem) req).content.metadata.mode
        = "personal" := by
  simp only [List.mem_cons, List.not_mem_nil, or_false, not_or] at hsix
  obtain ⟨m1, m2, m3, m4, m5, m6⟩ := hsix
  have e1 : req.mode ≠ some "art" := by rw [hmode]; simpa using m1
  have e2 : req.mode ≠ some "poster" := by rw [hmode]; simpa using m2
  have e3 : req.mode ≠ some "story" := by rw [hmode]; simpa using m3
  have e4 : req.mode ≠ some "transform" := by rw [hmode]; simpa using m4
  have e5 : req.mode ≠ some "business" := by rw [hmode]; simpa using m5
  refine ⟨?_, ?_, ?_, ?_⟩
  · unfold chat
    rcases hc : st.conv req.user_id with _ | l <;> simp only [hc]
    · unfold chat_fresh
      rw [if_neg (by rw [hnotvague]; simp)]
      unfold generate_content
      simp only [hcrash]
    · rw [if_neg (hnoq l hc)]
      unfold chat_fresh
      rw [if_neg (by rw [hnotvague]; simp)]
      unfold generate_content
      simp only [hcrash]
  · simp [generate_content_core, e1, e2, e3, e4, e5]
  · simp [generate_content_core, e1, e2, e3, e4, e5]
  · simp [generate_content_core, e1, e2, e3, e4, e5]

/-- A request with the undocumented mode string "mood". -/
def reqMoodMode : ChatRequest := { user_id := "u1", message := "a flower", mode := some "mood" }

/-- C10 witness: mode "mood" is accepted and produces a personal-mode image
result. -/
theorem unknown_mode_defaults_to_personal_witness :
    (chat gAllFail 0 emptyState reqMoodMode).2
      = ChatReply.ok (generate_content_core gAllFail
          (update_context "u1" "a flower" emptyState.ctx)
          (update_memory "u1" "a flower" emptyState.mem) reqMoodMode)
  ∧ (generate_content_core gAllFail (update_context "u1" "a flower" emptyState.ctx)
      (update_memory "u1" "a flower" emptyState.mem) reqMoodMode).type = "image"
  ∧ (generate_content_core gAllFail (update_context "u1" "a flower" emptyState.ctx)
      (update_memory "u1" "a flower" emptyState.mem) reqMoodMode).content.mode
        = "personal" := by
  have h := unknown_mode_defaults_to_personal gAllFail 0 emptyState reqMoodMode "mood"
    rfl (by decide) (fun l hl => nomatch hl) rfl (by decide)
  exact ⟨h.1, h.2.1, h.2.2.1⟩

/-! ## Claim C7 — story mode: one image per scene, but untagged prompts -/

/-- The tagged per-scene prompts `generate_story` computes. -/
theorem generate_story_image_prompts (t : Nat) (prompt mood : String) :
    (generate_story t prompt mood).image_prompts
      = generate_image_prompts
          [choose (story_templates_for mood (story_type_of prompt)) t ++ " " ++ prompt,
           "The " ++ mood ++ " journey continued as new challenges emerged.",
           "In the end, the " ++ mood ++ " experience left everyone transformed."]
          ((mood_prompts.lookup mood).getD "atmospheric") := rfl

/-- C7, counterexample: on a concrete story request with all providers
failing, the first image slot holds a placeholder drawn from the prompt
actually sent for scene 1 — `"{scene}, {style}, {mood} atmosphere"` — and
that prompt does not contain "establishing shot", contrary to the claim that
the per-scene image prompt tags the first scene as an establishing shot. -/
theorem story_prompt_lacks_establishing_shot_cex :
    (generate_content_core gAllFail emptyCtx emptyMem reqStoryEx).content.images.getD 0 none
      = some (EncodedImage.mk (Img.placeholder (story_scene_prompt
          "Once upon a time, in a vibrant land far away... a quest" "cinematic" "vibrant")))
  ∧ strContains (story_scene_prompt
        "Once upon a time, in a vibrant land far away... a quest" "cinematic" "vibrant")
      "establishing shot" = false
  ∧ strContains ((generate_story 0 "a quest" "vibrant").image_prompts.getD 0 "")
      "establishing shot" = true := by
  refine ⟨by decide, by decide, by decide⟩

/-- C7, amended: story mode requests exactly one image per scene of the
3-scene narrative, but the prompt used for each image is
`"{scene}, {style}, {mood} atmosphere"`, with no establishing-shot / action /
resolution tags; the story generator separately computes tagged
`image_prompts` (establishing shot, action scene, resolution) which the
orchestrator never uses. -/
theorem story_mode_one_image_per_scene
    (g : GenOracle) (ctx : Ctx) (mem : Memory) (req : ChatRequest)
    (hm : req.mode = some "story") :
    (generate_content_core g ctx mem req).content.images
      = ((generate_story g.storyTemplateChoice req.message
            (((ctx req.user_id).getD {}).mood.getD "vibrant")).scenes.enum.map (fun p =>
          some (EncodedImage.mk (match g.outcomes p.1 with
            | some d => Img.provided d
            | none => Img.placeholder (story_scene_prompt p.2
                (choose ["cinematic", "illustrated", "children's book"] g.styleChoice)
                (((ctx req.user_id).getD {}).mood.getD "vibrant"))))))
  ∧ (generate_story g.storyTemplateChoice req.message
        (((ctx req.user_id).getD {}).mood.getD "vibrant")).scenes.length = 3
  ∧ strContains ((generate_story g.storyTemplateChoice req.message
        (((ctx req.user_id).getD {}).mood.getD "vibrant")).image_prompts.getD 0 "")
      "establishing shot" = true
  ∧ strContains ((generate_story g.storyTemplateChoice req.message
        (((ctx req.user_id).getD {}).mood.getD "vibrant")).image_prompts.getD 1 "")
      "action scene" = true
  ∧ strContains ((generate_story g.storyTemplateChoice req.message
        (((ctx req.user_id).getD {}).mood.getD "vibrant")).image_prompts.getD 2 "")
      "resolution, emotional payoff" = true := by
  have e1 : req.mode ≠ some "art" := by rw [hm]; decide
  have e2 : req.mode ≠ some "poster" := by rw [hm]; decide
  refine ⟨?_, by simp [generate_story_scenes], ?_, ?_, ?_⟩
  · simp only [generate_content_core, if_neg e1, if_neg e2, if_pos hm, generate_story_scenes]
    simp [story_scene_images, generate_images_hf, encode_images, List.range_succ,
      List.enum, List.enumFrom, story_scene_prompt]
  · rw [generate_story_image_prompts]
    simp only [generate_image_prompts, List.enum, List.enumFrom, List.map_cons,
      List.getD_cons_zero]
    exact strContains_right _ _ _ (by decide)
  · rw [generate_story_image_prompts]
    simp only [generate_image_prompts, List.enum, List.enumFrom, List.map_cons,
      List.getD_cons_succ, List.getD_cons_zero]
    exact strContains_right _ _ _ (by decide)
  · rw [generate_story_image_prompts]
    simp only [generate_image_prompts, List.enum, List.enumFrom, List.map_cons,
      List.getD_cons_succ, List.getD_cons_zero]
    exact strContains_right _ _ _ (by decide)

/-- C7 witness: the amended statement at the concrete story request. -/
theorem story_mode_one_image_per_scene_witness :
    (generate_content_core gAllFail emptyCtx emptyMem reqStoryEx).content.images
      = ((generate_story 0 "a quest" "vibrant").scenes.enum.map (fun p =>
          some (EncodedImage.mk (Img.placeholder
            (story_scene_prompt p.2 "cinematic" "vibrant"))))) := by
  have h := (story_mode_one_image_per_scene gAllFail emptyCtx emptyMem reqStoryEx rfl).1
  rw [h]
  decide
